import Mathlib

/-!
Verification of the gesture engine of blackslate/draggable-react.

The repository contains two variants of the same drag module:
* `src/src/drag.js` — exports `getPageXY`, `getXY`, `detectMovement`
  (default timeout 150 ms, promise rejected with no reason, the timer
  invokes `drop` which cancels the session) and `setTrackedEvents`,
  which both installs and removes the listeners of a tracking session.
* `src/unnamed/part_002` — exports `detectMovement` (default timeout
  250 ms, promise rejected with `"release"` or `"timeOut"`, the timer
  invokes `reject` directly) and `startTracking`, whose returned
  `cancelTracking` closure removes the listeners of the session.

Below, definitions in the `Gist` namespace embed `src/unnamed/part_002`
and definitions in the `DragJs` namespace embed `src/src/drag.js`;
definitions shared by both files (the listener registry, the tracking
session's add/remove effect, `getPageXY`, the `drag` move callback) are
declared once at top level.

Machine model: the code is single-threaded and event-driven.  The DOM
listener registry is a list of entries keyed by target, event name,
listener function identity and capture flag — `addEventListener` is a
no-op when an identical entry is present, `removeEventListener` removes
the identical entry and ignores a missing one.  A run of the movement
detector is a fold of a step function over a trace of move, end and
timer events; a move or end event reaches its callback only while the
corresponding listener entry is registered, and the one-shot timer
fires at most once, exactly when it is live.  The promise is one-shot:
`settle` changes the outcome only from the pending state, embedding the
resolve/reject semantics of a JS `Promise`.
-/

/-- Targets on which the module registers listeners: `document.body`
for the move/end listeners and `document` for the `noDefault`
touch-scroll suppressor. -/
inductive Target
  | body
  | doc
deriving DecidableEq

/-- One registered DOM listener: target node, event name, identity of
the listener function (JS compares listeners by reference), and the
capture flag (the only option that participates in removal matching). -/
structure Entry where
  tgt : Target
  evName : String
  fnId : Nat
  capture : Bool
deriving DecidableEq

/-- DOM `addEventListener`: registering an already-present
(target, type, listener, capture) combination is a no-op. -/
def addListener (reg : List Entry) (e : Entry) : List Entry :=
  if e ∈ reg then reg else reg ++ [e]

/-- DOM `removeEventListener`: removes the identical entry, silently
ignores a missing one. -/
def removeListener (reg : List Entry) (e : Entry) : List Entry :=
  reg.erase e

/-- Function identity of the module-level `noDefault` listener
(`const noDefault = (event) => event.preventDefault()`), shared by all
sessions precisely so it can be removed by reference later. -/
def noDefaultId : Nat := 0

/-- The move/end event-name pair chosen from the start event's type:
`if (event.type === "touchstart") { move = "touchmove"; end = "touchend" }
else { move = "mousemove"; end = "mouseup" }` — identical in
`startTracking` (part_002) and `setTrackedEvents` (drag.js). -/
def trackedActions (evType : String) : String × String :=
  if evType = "touchstart" then ("touchmove", "touchend") else ("mousemove", "mouseup")

/-- The session's move listener entry: `body.addEventListener(move, drag, false)`. -/
def moveEntry (evType : String) (dragId : Nat) : Entry :=
  ⟨.body, (trackedActions evType).1, dragId, false⟩

/-- The session's end listener entry: `body.addEventListener(end, drop, false)`. -/
def endEntry (evType : String) (dropId : Nat) : Entry :=
  ⟨.body, (trackedActions evType).2, dropId, false⟩

/-- The touch-scroll suppressor entry:
`document.addEventListener("touchstart", noDefault, { passive: false })`
(capture defaults to false, so removal with no options matches it). -/
def noDefaultEntry : Entry :=
  ⟨.doc, "touchstart", noDefaultId, false⟩

/-- Registry effect of opening a tracking session — `startTracking` in
part_002 and the `event`-present branch of `setTrackedEvents` in
drag.js: add the move listener, the end listener, and the `noDefault`
suppressor. -/
def startTracking (reg : List Entry) (evType : String) (dragId dropId : Nat) : List Entry :=
  addListener (addListener (addListener reg (moveEntry evType dragId))
    (endEntry evType dropId)) noDefaultEntry

/-- Registry effect of cancelling a tracking session — the
`cancelTracking` closure returned by `startTracking` in part_002 and
the `event`-absent branch of `setTrackedEvents` in drag.js: remove the
move listener, the end listener, and the `noDefault` suppressor, each
by the identical reference that was registered. -/
def cancelTracking (reg : List Entry) (evType : String) (dragId dropId : Nat) : List Entry :=
  removeListener (removeListener (removeListener reg (moveEntry evType dragId))
    (endEntry evType dropId)) noDefaultEntry

/-! ## Coordinate extraction (`getPageXY` in both files, `getXY` in drag.js) -/

/-- A plain coordinate-bearing object: a mouse event, a `Touch` entry of
`targetTouches`, or the empty object `{}`.  Each field is `none` when
the property is absent (JS `undefined`). -/
structure EObj where
  clientX : Option ℤ
  clientY : Option ℤ
  pageX : Option ℤ
  pageY : Option ℤ
  offsetX : Option ℤ
  offsetY : Option ℤ
deriving DecidableEq

/-- The empty object `{}`: every property read yields `undefined`. -/
def emptyObj : EObj := ⟨none, none, none, none, none, none⟩

/-- An incoming event: its own coordinate properties plus the
`targetTouches` list (`none` when the property is absent, as on mouse
events; `some []` models a touch event whose active-touch list is
empty). -/
structure JsEvent where
  self : EObj
  targetTouches : Option (List EObj)
deriving DecidableEq

/-- Source of coordinates after the guard
`if (event.targetTouches && event.targetTouches.length)`, whose body
replaces the event by `event.targetTouches[0]` — or by the empty object
when that first element is falsy: the first active touch when the list
is present and non-empty, otherwise the event itself. -/
def touchTarget (e : JsEvent) : EObj :=
  match e.targetTouches with
  | some ts => if ts.length ≠ 0 then ts.headD emptyObj else e.self
  | none => e.self

/-- Embeds `getPageXY` (identical in drag.js and part_002): the page
coordinates of the first active touch, or of the event itself. -/
def getPageXY (e : JsEvent) : Option ℤ × Option ℤ :=
  let src := touchTarget e
  (src.pageX, src.pageY)

/-- Embeds the frame normalization of `getXY`:
`if (["client", "page", "offset"].indexOf(frame) < 0) frame = "client"`,
with `none` for an omitted argument. -/
def normalizeFrame : Option String → String
  | some f => if f ∈ ["client", "page", "offset"] then f else "client"
  | none => "client"

/-- Property read `event[frame + "X"]` for the three frame names the
normalized argument can take (any other name reads `undefined`). -/
def fieldX (o : EObj) (frame : String) : Option ℤ :=
  if frame = "client" then o.clientX
  else if frame = "page" then o.pageX
  else if frame = "offset" then o.offsetX
  else none

/-- Property read `event[frame + "Y"]`. -/
def fieldY (o : EObj) (frame : String) : Option ℤ :=
  if frame = "client" then o.clientY
  else if frame = "page" then o.pageY
  else if frame = "offset" then o.offsetY
  else none

/-- Embeds `getXY` from drag.js: normalize the frame argument, pick the
first active touch when present, and read the frame's X/Y properties. -/
def getXY (e : JsEvent) (frame : Option String) : Option ℤ × Option ℤ :=
  let f := normalizeFrame frame
  let src := touchTarget e
  (fieldX src f, fieldY src f)

/-! ## Timeout normalization of `detectMovement` -/

/-- The timeout argument of `detectMovement` in the domain its
documentation admits: a number of milliseconds, `NaN`, or omitted
(`undefined`). -/
inductive TimeoutArg
  | undefined
  | nan
  | num (q : ℤ)
deriving DecidableEq

/-- JS `isNaN` on the timeout argument: `isNaN(undefined)` is `true`
(its numeric coercion is `NaN`), `isNaN(NaN)` is `true`, and a plain
number is `NaN` only if it is `NaN`. -/
def jsIsNaN : TimeoutArg → Bool
  | .undefined => true
  | .nan => true
  | .num _ => false

/-- Embeds `timeOut = isNaN(timeOut) ? default : Math.abs(timeOut)`
(the default constant is 250 in part_002 and 150 in drag.js). -/
def normalizeTimeout (defaultMs : ℤ) : TimeoutArg → ℤ
  | .num q => |q|
  | _ => defaultMs

/-! ## The movement detector (`detectMovement` in both files)

The executor `movementDetected(resolve, reject)` captures the start
coordinates, opens a tracking session whose `drag`/`drop` callbacks may
cancel the session and settle the promise, and, when the normalized
timeout is non-zero (`if (timeOut) setTimeout(...)`), schedules a
one-shot timer.  A run processes a trace of move, end and timer events:
a move or end event reaches its callback only while the session's
listener entry is registered, and the timer fires at most once, exactly
when it is live (a `setTimeout` callback is never cancelled by the
module, but `settle` ignores it once the promise is decided). -/

/-- Resolution state of the detector's promise. -/
inductive Outcome
  | pending
  | resolved
  | rejected (reason : Option String)
deriving DecidableEq

/-- One-shot settlement of a JS promise: `resolve`/`reject` take effect
only while the promise is pending. -/
def settle : Outcome → Outcome → Outcome
  | .pending, t => t
  | o, _ => o

/-- Per-gesture constants captured by `detectMovement`'s closures:
start-event type, start coordinates from `getPageXY(event)`, the
squared trigger distance `trigger2 = triggerDelta * triggerDelta`, and
the normalized timeout. -/
structure Cfg where
  evType : String
  startX : ℤ
  startY : ℤ
  trigger2 : ℤ
  timeOut : ℤ
deriving DecidableEq

/-- Mutable state of one detector run: promise outcome, the DOM
listener registry (the detector opens its session on a registry holding
no listener of its own), and whether the one-shot timer is still due to
fire. -/
structure DState where
  outcome : Outcome
  reg : List Entry
  timerLive : Bool
deriving DecidableEq

/-- Function identity of the detector's `drag` closure. -/
def dragFnId : Nat := 1

/-- Function identity of the detector's `drop` closure. -/
def dropFnId : Nat := 2

/-- External occurrences during a gesture: a move event at page
coordinates (x, y), the end event (mouse release / touch end), and the
expiry of the `setTimeout` timer. -/
inductive GEvent
  | move (x y : ℤ)
  | endEv
  | timer
deriving DecidableEq

/-- Squared displacement
`deltaX = startX - x; deltaY = startY - y; delta2 = deltaX*deltaX + deltaY*deltaY`. -/
def delta2 (startX startY x y : ℤ) : ℤ :=
  (startX - x) * (startX - x) + (startY - y) * (startY - y)

/-- The `drag` move callback, identical in both files: when the squared
displacement strictly exceeds `trigger2`, cancel the detector's session
and resolve the promise; otherwise do nothing. -/
def drag (cfg : Cfg) (s : DState) (x y : ℤ) : DState :=
  if delta2 cfg.startX cfg.startY x y > cfg.trigger2 then
    { s with reg := cancelTracking s.reg cfg.evType dragFnId dropFnId
           , outcome := settle s.outcome .resolved }
  else s

/-- The `drop` callback of part_002: `cancelTracking(); reject("release")`. -/
def Gist.drop (cfg : Cfg) (s : DState) : DState :=
  { s with reg := cancelTracking s.reg cfg.evType dragFnId dropFnId
         , outcome := settle s.outcome (.rejected (some "release")) }

/-- The timer callback of part_002: `setTimeout(() => reject("timeOut"), timeOut)`
rejects without cancelling the session. -/
def Gist.timerFired (s : DState) : DState :=
  { s with outcome := settle s.outcome (.rejected (some "timeOut")) }

/-- The `drop` callback of drag.js: `setTrackedEvents(cancel); reject()`
— the rejection carries no reason. -/
def DragJs.drop (cfg : Cfg) (s : DState) : DState :=
  { s with reg := cancelTracking s.reg cfg.evType dragFnId dropFnId
         , outcome := settle s.outcome (.rejected none) }

/-- One dispatch step of the part_002 detector: move and end events
reach `drag`/`drop` only while the matching listener is registered; the
timer, scheduled by `setTimeout`, fires once while live and calls
`reject("timeOut")` directly. -/
def Gist.step (cfg : Cfg) (s : DState) : GEvent → DState
  | .move x y => if moveEntry cfg.evType dragFnId ∈ s.reg then drag cfg s x y else s
  | .endEv => if endEntry cfg.evType dropFnId ∈ s.reg then Gist.drop cfg s else s
  | .timer => if s.timerLive then Gist.timerFired { s with timerLive := false } else s

/-- One dispatch step of the drag.js detector: as in part_002 except
that the timer was scheduled as `setTimeout(drop, timeOut)`, so its
expiry runs `drop` — cancelling the session and rejecting. -/
def DragJs.step (cfg : Cfg) (s : DState) : GEvent → DState
  | .move x y => if moveEntry cfg.evType dragFnId ∈ s.reg then drag cfg s x y else s
  | .endEv => if endEntry cfg.evType dropFnId ∈ s.reg then DragJs.drop cfg s else s
  | .timer => if s.timerLive then DragJs.drop cfg { s with timerLive := false } else s

/-- State right after `movementDetected` ran: promise pending, the
detector's own tracking session open (on a registry with no other
detector listener), and the timer scheduled iff the normalized timeout
is non-zero (`if (timeOut) setTimeout(...)`). -/
def initState (cfg : Cfg) : DState :=
  { outcome := .pending
  , reg := startTracking [] cfg.evType dragFnId dropFnId
  , timerLive := decide (cfg.timeOut ≠ 0) }

/-- Run of the part_002 detector over a trace of gesture events. -/
def Gist.run (cfg : Cfg) (trace : List GEvent) : DState :=
  trace.foldl (Gist.step cfg) (initState cfg)

/-- Run of the drag.js detector over a trace of gesture events. -/
def DragJs.run (cfg : Cfg) (trace : List GEvent) : DState :=
  trace.foldl (DragJs.step cfg) (initState cfg)

/-- Entry point of `detectMovement` in part_002: squares the trigger
distance and normalizes the timeout with default 250. -/
def Gist.detectMovement (evType : String) (startX startY triggerDelta : ℤ)
    (timeOut : TimeoutArg) : Cfg :=
  { evType := evType, startX := startX, startY := startY
  , trigger2 := triggerDelta * triggerDelta
  , timeOut := normalizeTimeout 250 timeOut }

/-- Entry point of `detectMovement` in drag.js: squares the trigger
distance and normalizes the timeout with default 150. -/
def DragJs.detectMovement (evType : String) (startX startY triggerDelta : ℤ)
    (timeOut : TimeoutArg) : Cfg :=
  { evType := evType, startX := startX, startY := startY
  , trigger2 := triggerDelta * triggerDelta
  , timeOut := normalizeTimeout 150 timeOut }

/-- A move event whose displacement stays within the trigger distance
(and only a move event): the events a gesture may contain before the
detector decides anything. -/
def isSmallMove (cfg : Cfg) : GEvent → Bool
  | .move x y => decide (delta2 cfg.startX cfg.startY x y ≤ cfg.trigger2)
  | _ => false

/-- Recognizes the timer-expiry event. -/
def isTimer : GEvent → Bool
  | .timer => true
  | _ => false

/-- The detector configuration of the demo application:
`detectMovement(event, 16)` on a mousedown at page position (100, 100)
— trigger distance 16, timeout omitted. -/
def exampleCfg : Cfg := Gist.detectMovement "mousedown" 100 100 16 .undefined

/-- Same gesture through the drag.js variant of `detectMovement`. -/
def exampleCfgJs : Cfg := DragJs.detectMovement "mousedown" 100 100 16 .undefined

/-- Reachable registry/outcome shapes of a part_002 detector run: the
registry is either the session as installed or empty; while the promise
is pending the session is intact; and a resolution caused by movement
or release has emptied the registry. -/
def GistInv (cfg : Cfg) (s : DState) : Prop :=
  (s.reg = (initState cfg).reg ∨ s.reg = []) ∧
  (s.outcome = .pending → s.reg = (initState cfg).reg) ∧
  ((s.outcome = .resolved ∨ s.outcome = .rejected (some "release")) → s.reg = [])

/-- Reachable shapes of a drag.js detector run: as for part_002, except
that every settled outcome (the timeout included) has emptied the
registry. -/
def DragJsInv (cfg : Cfg) (s : DState) : Prop :=
  (s.reg = (initState cfg).reg ∨ s.reg = []) ∧
  (s.outcome = .pending → s.reg = (initState cfg).reg) ∧
  (s.outcome ≠ .pending → s.reg = [])

/-- An unrelated listener (a keydown handler of the host page) used to
check that session cancellation leaves other registrations alone. -/
def otherEntry : Entry := ⟨.body, "keydown", 7, false⟩

/-- A registry holding one unrelated listener plus the three listeners
of a touch-gesture tracking session. -/
def exReg : List Entry :=
  [otherEntry, moveEntry "touchstart" dragFnId, endEntry "touchstart" dropFnId, noDefaultEntry]

/-- A concrete `Touch` entry carrying client and page coordinates. -/
def exTouch : EObj := ⟨some 5, some 6, some 7, some 8, none, none⟩

/-- A touch event whose `targetTouches` list holds one active touch
(the event object itself, a `TouchEvent`, has no own coordinates). -/
def exTouchEvent : JsEvent := ⟨emptyObj, some [exTouch]⟩

/-- A touch-kind event whose active-touch list is empty. -/
def exEmptyTouchEvent : JsEvent := ⟨emptyObj, some []⟩

section TrackingLemmas

theorem trackedActions_eq_or (evType : String) :
    trackedActions evType = ("touchmove", "touchend") ∨
      trackedActions evType = ("mousemove", "mouseup") := by
  unfold trackedActions
  by_cases h : evType = "touchstart" <;> simp [h]

theorem moveEntry_ne_endEntry (evType : String) (dragId dropId : Nat) :
    moveEntry evType dragId ≠ endEntry evType dropId := by
  rcases trackedActions_eq_or evType with h | h <;>
    simp [moveEntry, endEntry, h]

theorem moveEntry_ne_noDefaultEntry (evType : String) (dragId : Nat) :
    moveEntry evType dragId ≠ noDefaultEntry := by
  simp [moveEntry, noDefaultEntry]

theorem endEntry_ne_noDefaultEntry (evType : String) (dropId : Nat) :
    endEntry evType dropId ≠ noDefaultEntry := by
  simp [endEntry, noDefaultEntry]

theorem startTracking_eq_append (reg : List Entry) (evType : String) (dragId dropId : Nat)
    (h1 : moveEntry evType dragId ∉ reg) (h2 : endEntry evType dropId ∉ reg)
    (h3 : noDefaultEntry ∉ reg) :
    startTracking reg evType dragId dropId
      = reg ++ [moveEntry evType dragId, endEntry evType dropId, noDefaultEntry] := by
  have hem : endEntry evType dropId ≠ moveEntry evType dragId :=
    (moveEntry_ne_endEntry evType dragId dropId).symm
  have hnm : noDefaultEntry ≠ moveEntry evType dragId :=
    (moveEntry_ne_noDefaultEntry evType dragId).symm
  have hne : noDefaultEntry ≠ endEntry evType dropId :=
    (endEntry_ne_noDefaultEntry evType dropId).symm
  simp [startTracking, addListener, h1, h2, h3, hem, hnm, hne]

theorem startTracking_nil_eq (evType : String) (dragId dropId : Nat) :
    startTracking [] evType dragId dropId
      = [moveEntry evType dragId, endEntry evType dropId, noDefaultEntry] := by
  simpa using startTracking_eq_append [] evType dragId dropId
    (by simp) (by simp) (by simp)

theorem cancelTracking_mem_iff (reg : List Entry) (evType : String) (dragId dropId : Nat)
    (hnd : reg.Nodup) (x : Entry) :
    x ∈ cancelTracking reg evType dragId dropId ↔
      x ∈ reg ∧ x ≠ moveEntry evType dragId ∧ x ≠ endEntry evType dropId ∧
        x ≠ noDefaultEntry := by
  unfold cancelTracking removeListener
  by_cases h3 : x = noDefaultEntry
  · subst h3
    refine ⟨fun hx => absurd hx ((hnd.erase _).erase _).not_mem_erase, ?_⟩
    rintro ⟨-, -, -, h⟩
    exact absurd rfl h
  · rw [List.mem_erase_of_ne h3]
    by_cases h2 : x = endEntry evType dropId
    · subst h2
      refine ⟨fun hx => absurd hx (hnd.erase _).not_mem_erase, ?_⟩
      rintro ⟨-, -, h, -⟩
      exact absurd rfl h
    · rw [List.mem_erase_of_ne h2]
      by_cases h1 : x = moveEntry evType dragId
      · subst h1
        refine ⟨fun hx => absurd hx hnd.not_mem_erase, ?_⟩
        rintro ⟨-, h, -, -⟩
        exact absurd rfl h
      · rw [List.mem_erase_of_ne h1]
        simp [h1, h2, h3]

theorem cancelTracking_of_not_mem (S : List Entry) (evType : String) (dragId dropId : Nat)
    (h1 : moveEntry evType dragId ∉ S) (h2 : endEntry evType dropId ∉ S)
    (h3 : noDefaultEntry ∉ S) :
    cancelTracking S evType dragId dropId = S := by
  unfold cancelTracking removeListener
  rw [List.erase_of_not_mem h1, List.erase_of_not_mem h2, List.erase_of_not_mem h3]

theorem cancelTracking_nil (evType : String) (dragId dropId : Nat) :
    cancelTracking [] evType dragId dropId = [] :=
  cancelTracking_of_not_mem [] evType dragId dropId (by simp) (by simp) (by simp)

theorem cancelTracking_triple (evType : String) (dragId dropId : Nat) :
    cancelTracking [moveEntry evType dragId, endEntry evType dropId, noDefaultEntry]
      evType dragId dropId = [] := by
  have hem : endEntry evType dropId ≠ moveEntry evType dragId :=
    (moveEntry_ne_endEntry evType dragId dropId).symm
  have hnm : noDefaultEntry ≠ moveEntry evType dragId :=
    (moveEntry_ne_noDefaultEntry evType dragId).symm
  have hne : noDefaultEntry ≠ endEntry evType dropId :=
    (endEntry_ne_noDefaultEntry evType dropId).symm
  simp [cancelTracking, removeListener, List.erase_cons, hem, hnm, hne]

end TrackingLemmas

/-! ## General lemmas about the detector machines -/

theorem settle_of_ne_pending (o t : Outcome) (h : o ≠ .pending) : settle o t = o := by
  cases o with
  | pending => exact absurd rfl h
  | resolved => rfl
  | rejected r => rfl

theorem settle_ne_pending (o t : Outcome) (h : t ≠ .pending) : settle o t ≠ .pending := by
  cases o with
  | pending => exact h
  | resolved => simp [settle]
  | rejected r => simp [settle]

theorem settle_eq_or (o t : Outcome) : settle o t = t ∨ settle o t = o := by
  cases o with
  | pending => exact Or.inl rfl
  | resolved => exact Or.inr rfl
  | rejected r => exact Or.inr rfl

theorem foldl_preserve {α β : Type} (f : α → β → α) (P : α → Prop)
    (hstep : ∀ s e, P s → P (f s e)) :
    ∀ (l : List β) (s : α), P s → P (l.foldl f s) := by
  intro l
  induction l with
  | nil => intro s hs; exact hs
  | cons e t ih => intro s hs; exact ih (f s e) (hstep s e hs)

theorem foldl_fixed {α β : Type} (f : α → β → α) (s : α) (p : β → Bool)
    (hf : ∀ e, p e = true → f s e = s) :
    ∀ l : List β, l.all p = true → l.foldl f s = s := by
  intro l
  induction l with
  | nil => intro _; rfl
  | cons e t ih =>
    intro h
    rw [List.all_cons, Bool.and_eq_true] at h
    rw [List.foldl_cons, hf e h.1]
    exact ih h.2

theorem initState_reg (cfg : Cfg) :
    (initState cfg).reg
      = [moveEntry cfg.evType dragFnId, endEntry cfg.evType dropFnId, noDefaultEntry] := by
  simp [initState, startTracking_nil_eq]

theorem moveEntry_mem_initState (cfg : Cfg) :
    moveEntry cfg.evType dragFnId ∈ (initState cfg).reg := by
  rw [initState_reg]
  simp

theorem endEntry_mem_initState (cfg : Cfg) :
    endEntry cfg.evType dropFnId ∈ (initState cfg).reg := by
  rw [initState_reg]
  simp

theorem cancelTracking_initReg (cfg : Cfg) :
    cancelTracking (initState cfg).reg cfg.evType dragFnId dropFnId = [] := by
  rw [initState_reg]
  exact cancelTracking_triple cfg.evType dragFnId dropFnId

theorem gist_step_outcome_settled (cfg : Cfg) (s : DState) (e : GEvent)
    (h : s.outcome ≠ .pending) : (Gist.step cfg s e).outcome = s.outcome := by
  cases e with
  | move x y =>
    simp only [Gist.step]
    split
    · unfold drag
      split
      · simp [settle_of_ne_pending s.outcome _ h]
      · rfl
    · rfl
  | endEv =>
    simp only [Gist.step]
    split
    · simp [Gist.drop, settle_of_ne_pending s.outcome _ h]
    · rfl
  | timer =>
    simp only [Gist.step]
    split
    · simp [Gist.timerFired, settle_of_ne_pending _ _ h]
    · rfl

theorem dragjs_step_outcome_settled (cfg : Cfg) (s : DState) (e : GEvent)
    (h : s.outcome ≠ .pending) : (DragJs.step cfg s e).outcome = s.outcome := by
  cases e with
  | move x y =>
    simp only [DragJs.step]
    split
    · unfold drag
      split
      · simp [settle_of_ne_pending s.outcome _ h]
      · rfl
    · rfl
  | endEv =>
    simp only [DragJs.step]
    split
    · simp [DragJs.drop, settle_of_ne_pending s.outcome _ h]
    · rfl
  | timer =>
    simp only [DragJs.step]
    split
    · simp [DragJs.drop, settle_of_ne_pending _ _ h]
    · rfl

theorem gist_step_inv (cfg : Cfg) (s : DState) (e : GEvent) (h : GistInv cfg s) :
    GistInv cfg (Gist.step cfg s e) := by
  obtain ⟨hreach, hpend, hterm⟩ := h
  cases e with
  | move x y =>
    simp only [Gist.step]
    split
    case isTrue hm =>
      unfold drag
      split
      case isTrue hd =>
        have hsreg : s.reg = (initState cfg).reg := by
          rcases hreach with h | h
          · exact h
          · rw [h] at hm
            simp at hm
        have hcan : cancelTracking s.reg cfg.evType dragFnId dropFnId = [] := by
          rw [hsreg]
          exact cancelTracking_initReg cfg
        refine ⟨Or.inr hcan, ?_, fun _ => hcan⟩
        intro hp
        exact absurd hp (settle_ne_pending _ _ (by decide))
      case isFalse hd => exact ⟨hreach, hpend, hterm⟩
    case isFalse hm => exact ⟨hreach, hpend, hterm⟩
  | endEv =>
    simp only [Gist.step]
    split
    case isTrue hm =>
      unfold Gist.drop
      have hsreg : s.reg = (initState cfg).reg := by
        rcases hreach with h | h
        · exact h
        · rw [h] at hm
          simp at hm
      have hcan : cancelTracking s.reg cfg.evType dragFnId dropFnId = [] := by
        rw [hsreg]
        exact cancelTracking_initReg cfg
      refine ⟨Or.inr hcan, ?_, fun _ => hcan⟩
      intro hp
      exact absurd hp (settle_ne_pending _ _ (by decide))
    case isFalse hm => exact ⟨hreach, hpend, hterm⟩
  | timer =>
    simp only [Gist.step]
    split
    case isTrue hl =>
      unfold Gist.timerFired
      refine ⟨hreach, ?_, ?_⟩
      · intro hp
        exact absurd hp (settle_ne_pending _ _ (by decide))
      · intro hres
        rcases settle_eq_or s.outcome (.rejected (some "timeOut")) with hs | hs
      
        · have : Outcome.rejected (some "timeOut") = Outcome.resolved ∨
              Outcome.rejected (some "timeOut") = Outcome.rejected (some "release") := by
            rw [← hs]
            exact hres
          rcases this with h | h
          · exact absurd h (by decide)
          · exact absurd h (by decide)
        · have : s.outcome = Outcome.resolved ∨
              s.outcome = Outcome.rejected (some "release") := by
            rw [← hs]
            exact hres
          exact hterm this
    case isFalse hl => exact ⟨hreach, hpend, hterm⟩

theorem dragjs_step_inv (cfg : Cfg) (s : DState) (e : GEvent) (h : DragJsInv cfg s) :
    DragJsInv cfg (DragJs.step cfg s e) := by
  obtain ⟨hreach, hpend, hterm⟩ := h
  have hcan_nil : cancelTracking ([] : List Entry) cfg.evType dragFnId dropFnId = [] :=
    cancelTracking_nil cfg.evType dragFnId dropFnId
  cases e with
  | move x y =>
    simp only [DragJs.step]
    split
    case isTrue hm =>
      unfold drag
      split
      case isTrue hd =>
        have hsreg : s.reg = (initState cfg).reg := by
          rcases hreach with h | h
          · exact h
          · rw [h] at hm
            simp at hm
        have hcan : cancelTracking s.reg cfg.evType dragFnId dropFnId = [] := by
          rw [hsreg]
          exact cancelTracking_initReg cfg
        refine ⟨Or.inr hcan, ?_, fun _ => hcan⟩
        intro hp
        exact absurd hp (settle_ne_pending _ _ (by decide))
      case isFalse hd => exact ⟨hreach, hpend, hterm⟩
    case isFalse hm => exact ⟨hreach, hpend, hterm⟩
  | endEv =>
    simp only [DragJs.step]
    split
    case isTrue hm =>
      unfold DragJs.drop
      have hsreg : s.reg = (initState cfg).reg := by
        rcases hreach with h | h
        · exact h
        · rw [h] at hm
          simp at hm
      have hcan : cancelTracking s.reg cfg.evType dragFnId dropFnId = [] := by
        rw [hsreg]
        exact cancelTracking_initReg cfg
      refine ⟨Or.inr hcan, ?_, fun _ => hcan⟩
      intro hp
      exact absurd hp (settle_ne_pending _ _ (by decide))
    case isFalse hm => exact ⟨hreach, hpend, hterm⟩
  | timer =>
    simp only [DragJs.step]
    split
    case isTrue hl =>
      unfold DragJs.drop
      have hcan : cancelTracking s.reg cfg.evType dragFnId dropFnId = [] := by
        rcases hreach with h | h
        · rw [h]
          exact cancelTracking_initReg cfg
        · rw [h]
          exact hcan_nil
      refine ⟨Or.inr hcan, ?_, fun _ => hcan⟩
      intro hp
      exact absurd hp (settle_ne_pending _ _ (by decide))
    case isFalse hl => exact ⟨hreach, hpend, hterm⟩

theorem gist_run_inv (cfg : Cfg) (trace : List GEvent) : GistInv cfg (Gist.run cfg trace) :=
  foldl_preserve (Gist.step cfg) (GistInv cfg)
    (fun s e hs => gist_step_inv cfg s e hs) trace (initState cfg)
    ⟨Or.inl rfl, fun _ => rfl, fun h => by simp [initState] at h⟩

theorem dragjs_run_inv (cfg : Cfg) (trace : List GEvent) :
    DragJsInv cfg (DragJs.run cfg trace) :=
  foldl_preserve (DragJs.step cfg) (DragJsInv cfg)
    (fun s e hs => dragjs_step_inv cfg s e hs) trace (initState cfg)
    ⟨Or.inl rfl, fun _ => rfl, fun h => absurd rfl h⟩

theorem gist_run_append_outcome (cfg : Cfg) (pre post : List GEvent)
    (h : (Gist.run cfg pre).outcome ≠ .pending) :
    (Gist.run cfg (pre ++ post)).outcome = (Gist.run cfg pre).outcome := by
  unfold Gist.run
  rw [List.foldl_append]
  exact foldl_preserve (Gist.step cfg)
    (fun s => s.outcome = (Gist.run cfg pre).outcome)
    (fun s e hs => by
      have hs' : s.outcome = (Gist.run cfg pre).outcome := hs
      show (Gist.step cfg s e).outcome = (Gist.run cfg pre).outcome
      rw [gist_step_outcome_settled cfg s e (by rw [hs']; exact h)]
      exact hs')
    post (pre.foldl (Gist.step cfg) (initState cfg)) rfl

theorem dragjs_run_append_outcome (cfg : Cfg) (pre post : List GEvent)
    (h : (DragJs.run cfg pre).outcome ≠ .pending) :
    (DragJs.run cfg (pre ++ post)).outcome = (DragJs.run cfg pre).outcome := by
  unfold DragJs.run
  rw [List.foldl_append]
  exact foldl_preserve (DragJs.step cfg)
    (fun s => s.outcome = (DragJs.run cfg pre).outcome)
    (fun s e hs => by
      have hs' : s.outcome = (DragJs.run cfg pre).outcome := hs
      show (DragJs.step cfg s e).outcome = (DragJs.run cfg pre).outcome
      rw [dragjs_step_outcome_settled cfg s e (by rw [hs']; exact h)]
      exact hs')
    post (pre.foldl (DragJs.step cfg) (initState cfg)) rfl

theorem gist_run_release_decided (cfg : Cfg) (pre post : List GEvent) :
    (Gist.run cfg (pre ++ GEvent.endEv :: post)).outcome ≠ .pending := by
  have hinv := gist_run_inv cfg pre
  have h1 : (Gist.step cfg (Gist.run cfg pre) GEvent.endEv).outcome ≠ .pending := by
    by_cases hp : (Gist.run cfg pre).outcome = .pending
    · have hreg : (Gist.run cfg pre).reg = (initState cfg).reg := hinv.2.1 hp
      have hm : endEntry cfg.evType dropFnId ∈ (Gist.run cfg pre).reg := by
        rw [hreg]
        exact endEntry_mem_initState cfg
      simp only [Gist.step, if_pos hm, Gist.drop]
      exact settle_ne_pending _ _ (by decide)
    · rw [gist_step_outcome_settled cfg _ _ hp]
      exact hp
  unfold Gist.run
  rw [List.foldl_append, List.foldl_cons]
  exact foldl_preserve (Gist.step cfg) (fun s => s.outcome ≠ .pending)
    (fun s e hs => by
      have hs' : s.outcome ≠ .pending := hs
      show (Gist.step cfg s e).outcome ≠ .pending
      rw [gist_step_outcome_settled cfg s e hs']
      exact hs')
    post _ h1

theorem dragjs_run_release_decided (cfg : Cfg) (pre post : List GEvent) :
    (DragJs.run cfg (pre ++ GEvent.endEv :: post)).outcome ≠ .pending := by
  have hinv := dragjs_run_inv cfg pre
  have h1 : (DragJs.step cfg (DragJs.run cfg pre) GEvent.endEv).outcome ≠ .pending := by
    by_cases hp : (DragJs.run cfg pre).outcome = .pending
    · have hreg : (DragJs.run cfg pre).reg = (initState cfg).reg := hinv.2.1 hp
      have hm : endEntry cfg.evType dropFnId ∈ (DragJs.run cfg pre).reg := by
        rw [hreg]
        exact endEntry_mem_initState cfg
      simp only [DragJs.step, if_pos hm, DragJs.drop]
      exact settle_ne_pending _ _ (by decide)
    · rw [dragjs_step_outcome_settled cfg _ _ hp]
      exact hp
  unfold DragJs.run
  rw [List.foldl_append, List.foldl_cons]
  exact foldl_preserve (DragJs.step cfg) (fun s => s.outcome ≠ .pending)
    (fun s e hs => by
      have hs' : s.outcome ≠ .pending := hs
      show (DragJs.step cfg s e).outcome ≠ .pending
      rw [dragjs_step_outcome_settled cfg s e hs']
      exact hs')
    post _ h1

theorem gist_step_init_small (cfg : Cfg) (e : GEvent) (he : isSmallMove cfg e = true) :
    Gist.step cfg (initState cfg) e = initState cfg := by
  cases e with
  | move x y =>
    have hd : delta2 cfg.startX cfg.startY x y ≤ cfg.trigger2 := by
      simpa [isSmallMove] using he
    simp only [Gist.step, if_pos (moveEntry_mem_initState cfg)]
    unfold drag
    rw [if_neg (not_lt.mpr hd)]
  | endEv => simp [isSmallMove] at he
  | timer => simp [isSmallMove] at he

theorem dragjs_step_init_small (cfg : Cfg) (e : GEvent) (he : isSmallMove cfg e = true) :
    DragJs.step cfg (initState cfg) e = initState cfg := by
  cases e with
  | move x y =>
    have hd : delta2 cfg.startX cfg.startY x y ≤ cfg.trigger2 := by
      simpa [isSmallMove] using he
    simp only [DragJs.step, if_pos (moveEntry_mem_initState cfg)]
    unfold drag
    rw [if_neg (not_lt.mpr hd)]
  | endEv => simp [isSmallMove] at he
  | timer => simp [isSmallMove] at he

theorem gist_run_small_moves (cfg : Cfg) (pre : List GEvent)
    (h : pre.all (isSmallMove cfg) = true) : Gist.run cfg pre = initState cfg :=
  foldl_fixed (Gist.step cfg) (initState cfg) (isSmallMove cfg)
    (fun e he => gist_step_init_small cfg e he) pre h

theorem dragjs_run_small_moves (cfg : Cfg) (pre : List GEvent)
    (h : pre.all (isSmallMove cfg) = true) : DragJs.run cfg pre = initState cfg :=
  foldl_fixed (DragJs.step cfg) (initState cfg) (isSmallMove cfg)
    (fun e he => dragjs_step_init_small cfg e he) pre h

theorem gist_run_reason_values (cfg : Cfg) (trace : List GEvent) :
    ∀ r, (Gist.run cfg trace).outcome = .rejected r →
      r = some "release" ∨ r = some "timeOut" := by
  refine foldl_preserve (Gist.step cfg)
    (fun s => ∀ r, s.outcome = .rejected r → r = some "release" ∨ r = some "timeOut")
    ?_ trace (initState cfg) (fun r hr => by simp [initState] at hr)
  intro s e hs
  have hs' : ∀ r, s.outcome = .rejected r → r = some "release" ∨ r = some "timeOut" := hs
  intro r hr
  cases e with
  | move x y =>
    simp only [Gist.step] at hr
    by_cases hm : moveEntry cfg.evType dragFnId ∈ s.reg
    · rw [if_pos hm] at hr
      unfold drag at hr
      by_cases hd : delta2 cfg.startX cfg.startY x y > cfg.trigger2
      · rw [if_pos hd] at hr
        rcases settle_eq_or s.outcome .resolved with hq | hq
        · have : Outcome.resolved = Outcome.rejected r := by
            rw [← hq]
            exact hr
          exact absurd this (by simp)
        · exact hs' r (by rw [← hq]; exact hr)
      · rw [if_neg hd] at hr
        exact hs' r hr
    · rw [if_neg hm] at hr
      exact hs' r hr
  | endEv =>
    simp only [Gist.step] at hr
    by_cases hm : endEntry cfg.evType dropFnId ∈ s.reg
    · rw [if_pos hm] at hr
      unfold Gist.drop at hr
      rcases settle_eq_or s.outcome (.rejected (some "release")) with hq | hq
      · have : Outcome.rejected (some "release") = Outcome.rejected r := by
          rw [← hq]
          exact hr
        exact Or.inl (Outcome.rejected.inj this).symm
      · exact hs' r (by rw [← hq]; exact hr)
    · rw [if_neg hm] at hr
      exact hs' r hr
  | timer =>
    simp only [Gist.step] at hr
    by_cases hl : s.timerLive
    · rw [if_pos hl] at hr
      unfold Gist.timerFired at hr
      rcases settle_eq_or s.outcome (.rejected (some "timeOut")) with hq | hq
      · have : Outcome.rejected (some "timeOut") = Outcome.rejected r := by
          rw [← hq]
          exact hr
        exact Or.inr (Outcome.rejected.inj this).symm
      · exact hs' r (by rw [← hq]; exact hr)
    · rw [if_neg hl] at hr
      exact hs' r hr

theorem foldl_filter_timer {f : DState → GEvent → DState}
    (hf : ∀ s, s.timerLive = false → f s .timer = s)
    (hpres : ∀ s e, s.timerLive = false → (f s e).timerLive = false) :
    ∀ (l : List GEvent) (s : DState), s.timerLive = false →
      l.foldl f s = (l.filter (fun e => !(isTimer e))).foldl f s := by
  intro l
  induction l with
  | nil => intro s _; rfl
  | cons e t ih =>
    intro s hs
    cases e with
    | move x y =>
      rw [List.foldl_cons]
      rw [show (GEvent.move x y :: t).filter (fun e => !(isTimer e))
            = GEvent.move x y :: t.filter (fun e => !(isTimer e)) by
          simp [List.filter_cons, isTimer]]
      rw [List.foldl_cons]
      exact ih (f s (GEvent.move x y)) (hpres s (GEvent.move x y) hs)
    | endEv =>
      rw [List.foldl_cons]
      rw [show (GEvent.endEv :: t).filter (fun e => !(isTimer e))
            = GEvent.endEv :: t.filter (fun e => !(isTimer e)) by
          simp [List.filter_cons, isTimer]]
      rw [List.foldl_cons]
      exact ih (f s GEvent.endEv) (hpres s GEvent.endEv hs)
    | timer =>
      rw [List.foldl_cons, hf s hs]
      rw [show (GEvent.timer :: t).filter (fun e => !(isTimer e))
            = t.filter (fun e => !(isTimer e)) by
          simp [List.filter_cons, isTimer]]
      exact ih s hs

theorem gist_step_timer_dead (cfg : Cfg) (s : DState) (h : s.timerLive = false) :
    Gist.step cfg s GEvent.timer = s := by
  simp [Gist.step, h]

theorem dragjs_step_timer_dead (cfg : Cfg) (s : DState) (h : s.timerLive = false) :
    DragJs.step cfg s GEvent.timer = s := by
  simp [DragJs.step, h]

theorem gist_step_timerLive_false (cfg : Cfg) (s : DState) (e : GEvent)
    (h : s.timerLive = false) : (Gist.step cfg s e).timerLive = false := by
  cases e with
  | move x y =>
    simp only [Gist.step]
    split
    · unfold drag
      split
      · exact h
      · exact h
    · exact h
  | endEv =>
    simp only [Gist.step]
    split
    · exact h
    · exact h
  | timer =>
    rw [gist_step_timer_dead cfg s h]
    exact h

theorem dragjs_step_timerLive_false (cfg : Cfg) (s : DState) (e : GEvent)
    (h : s.timerLive = false) : (DragJs.step cfg s e).timerLive = false := by
  cases e with
  | move x y =>
    simp only [DragJs.step]
    split
    · unfold drag
      split
      · exact h
      · exact h
    · exact h
  | endEv =>
    simp only [DragJs.step]
    split
    · exact h
    · exact h
  | timer =>
    rw [dragjs_step_timer_dead cfg s h]
    exact h

theorem gist_run_timeout_zero (cfg : Cfg) (h : cfg.timeOut = 0) (trace : List GEvent) :
    Gist.run cfg trace = Gist.run cfg (trace.filter (fun e => !(isTimer e))) := by
  unfold Gist.run
  exact foldl_filter_timer (gist_step_timer_dead cfg) (gist_step_timerLive_false cfg)
    trace (initState cfg) (by simp [initState, h])

theorem dragjs_run_timeout_zero (cfg : Cfg) (h : cfg.timeOut = 0) (trace : List GEvent) :
    DragJs.run cfg trace = DragJs.run cfg (trace.filter (fun e => !(isTimer e))) := by
  unfold DragJs.run
  exact foldl_filter_timer (dragjs_step_timer_dead cfg) (dragjs_step_timerLive_false cfg)
    trace (initState cfg) (by simp [initState, h])

/-! ## Claim theorems -/

/-- C3: For a gesture starting at (100, 100) with trigger distance 16
(`detectMovement(event, 16)`), both detector variants stay pending on
the moves to (105, 100) and (112, 100) and resolve as a drag exactly on
the move to (120, 100); the comparison is squared displacement against
the squared threshold — `trigger2 = 16 * 16 = 256` and the third move's
squared displacement is 400 — with no square root taken anywhere in the
model. -/
theorem drag_scenario_third_move_resolves :
    (Gist.run exampleCfg [GEvent.move 105 100]).outcome = .pending ∧
    (Gist.run exampleCfg [GEvent.move 105 100, GEvent.move 112 100]).outcome = .pending ∧
    (Gist.run exampleCfg
      [GEvent.move 105 100, GEvent.move 112 100, GEvent.move 120 100]).outcome = .resolved ∧
    (DragJs.run exampleCfgJs [GEvent.move 105 100]).outcome = .pending ∧
    (DragJs.run exampleCfgJs [GEvent.move 105 100, GEvent.move 112 100]).outcome = .pending ∧
    (DragJs.run exampleCfgJs
      [GEvent.move 105 100, GEvent.move 112 100, GEvent.move 120 100]).outcome = .resolved ∧
    exampleCfg.trigger2 = 256 ∧
    delta2 100 100 120 100 = 400 ∧
    delta2 100 100 112 100 = 144 ∧
    delta2 100 100 105 100 = 25 := by
  decide

/-- C1 (amended): a resolution caused by movement and a rejection
caused by release cancel the detector's internal tracking session in
the same step that settles the promise, in both variants, and in
drag.js the timeout rejection does too — after any such settled outcome
no listener installed by the detector remains registered.  (The
part_002 timeout rejection does not cancel the session; see
`gist_timeout_delivery_leaves_listeners`.) -/
theorem detector_cancels_session_before_delivery :
    (∀ (cfg : Cfg) (trace : List GEvent),
      (Gist.run cfg trace).outcome = .resolved ∨
        (Gist.run cfg trace).outcome = .rejected (some "release") →
      (Gist.run cfg trace).reg = []) ∧
    (∀ (cfg : Cfg) (trace : List GEvent),
      (DragJs.run cfg trace).outcome ≠ .pending → (DragJs.run cfg trace).reg = []) :=
  ⟨fun cfg trace h => (gist_run_inv cfg trace).2.2 h,
   fun cfg trace h => (dragjs_run_inv cfg trace).2.2 h⟩

/-- C1 witness: the demo gesture's threshold-exceeding move resolves
the part_002 detector and leaves its registry empty. -/
theorem detector_cancels_session_before_delivery_witness :
    (Gist.run exampleCfg [GEvent.move 120 100]).reg = [] :=
  detector_cancels_session_before_delivery.1 exampleCfg [GEvent.move 120 100]
    (Or.inl (by decide))

/-- C1 counterexample: in part_002 with the demo configuration, the
timer alone settles the promise as rejected "timeOut" while the
detector's move listener — indeed its whole session — is still
registered, so the session is not cancelled before that outcome is
delivered. -/
theorem gist_timeout_delivery_leaves_listeners :
    (Gist.run exampleCfg [GEvent.timer]).outcome = .rejected (some "timeOut") ∧
    moveEntry "mousedown" dragFnId ∈ (Gist.run exampleCfg [GEvent.timer]).reg ∧
    (Gist.run exampleCfg [GEvent.timer]).reg ≠ [] := by
  decide

/-- C2: the detector's outcome is a one-shot future in both variants:
it starts pending; once any terminal state is reached, processing any
further move, end or timer events leaves the outcome unchanged; and a
trace containing an end event never stays pending, so a completed
gesture settles the outcome exactly once. -/
theorem detector_outcome_one_shot :
    (∀ cfg : Cfg, (initState cfg).outcome = .pending) ∧
    (∀ (cfg : Cfg) (pre post : List GEvent),
      (Gist.run cfg pre).outcome ≠ .pending →
      (Gist.run cfg (pre ++ post)).outcome = (Gist.run cfg pre).outcome) ∧
    (∀ (cfg : Cfg) (pre post : List GEvent),
      (DragJs.run cfg pre).outcome ≠ .pending →
      (DragJs.run cfg (pre ++ post)).outcome = (DragJs.run cfg pre).outcome) ∧
    (∀ (cfg : Cfg) (pre post : List GEvent),
      (Gist.run cfg (pre ++ GEvent.endEv :: post)).outcome ≠ .pending) ∧
    (∀ (cfg : Cfg) (pre post : List GEvent),
      (DragJs.run cfg (pre ++ GEvent.endEv :: post)).outcome ≠ .pending) :=
  ⟨fun _ => rfl, gist_run_append_outcome, dragjs_run_append_outcome,
   gist_run_release_decided, dragjs_run_release_decided⟩

/-- C2 witness: after the release rejects the demo gesture, a later
threshold-exceeding move does not change the outcome. -/
theorem detector_outcome_one_shot_witness :
    (Gist.run exampleCfg ([GEvent.endEv] ++ [GEvent.move 200 200])).outcome
      = (Gist.run exampleCfg [GEvent.endEv]).outcome :=
  detector_outcome_one_shot.2.1 exampleCfg [GEvent.endEv] [GEvent.move 200 200] (by decide)

/-- C4 (amended): for every gesture whose end event fires while only
within-threshold moves have occurred (so before the displacement
exceeds the trigger and before the timer has fired), the part_002
detector rejects with reason "release", and the only other reason
part_002 ever produces is the string "timeOut"; the drag.js variant
rejects such a gesture with no reason value at all. -/
theorem release_rejection_reason_values :
    (∀ (cfg : Cfg) (pre : List GEvent), pre.all (isSmallMove cfg) = true →
      (Gist.run cfg (pre ++ [GEvent.endEv])).outcome = .rejected (some "release")) ∧
    (∀ (cfg : Cfg) (pre : List GEvent), pre.all (isSmallMove cfg) = true →
      (DragJs.run cfg (pre ++ [GEvent.endEv])).outcome = .rejected none) ∧
    (∀ (cfg : Cfg) (trace : List GEvent) (r : Option String),
      (Gist.run cfg trace).outcome = .rejected r →
      r = some "release" ∨ r = some "timeOut") := by
  refine ⟨?_, ?_, fun cfg trace r h => gist_run_reason_values cfg trace r h⟩
  · intro cfg pre h
    have hpre : Gist.run cfg pre = initState cfg := gist_run_small_moves cfg pre h
    unfold Gist.run at hpre ⊢
    rw [List.foldl_append, hpre, List.foldl_cons, List.foldl_nil]
    show (Gist.step cfg (initState cfg) GEvent.endEv).outcome = _
    simp only [Gist.step]
    rw [if_pos (endEntry_mem_initState cfg)]
    rfl
  · intro cfg pre h
    have hpre : DragJs.run cfg pre = initState cfg := dragjs_run_small_moves cfg pre h
    unfold DragJs.run at hpre ⊢
    rw [List.foldl_append, hpre, List.foldl_cons, List.foldl_nil]
    show (DragJs.step cfg (initState cfg) GEvent.endEv).outcome = _
    simp only [DragJs.step]
    rw [if_pos (endEntry_mem_initState cfg)]
    rfl

/-- C4 witness: a release after one small move rejects the part_002
demo gesture with reason "release". -/
theorem release_rejection_reason_values_witness :
    (Gist.run exampleCfg ([GEvent.move 105 100] ++ [GEvent.endEv])).outcome
      = .rejected (some "release") :=
  release_rejection_reason_values.1 exampleCfg [GEvent.move 105 100] (by decide)

/-- C4 counterexample: in drag.js, a gesture released before any
movement and before the timeout is rejected with no reason value — not
with the reason "release". -/
theorem dragjs_release_rejection_has_no_reason :
    (DragJs.run exampleCfgJs [GEvent.endEv]).outcome = .rejected none ∧
    Outcome.rejected none ≠ .rejected (some "release") := by
  decide

/-- C5 (amended): with a non-zero normalized timeout and no deciding
event before the timer fires, the part_002 detector rejects with the
string "timeOut" (capital O) and the drag.js detector — whose timer
runs `drop` — rejects with no reason and empties its registry; with a
zero timeout the timer is never scheduled, so timer events have no
effect on a run in either variant and the outcome can only be decided
by movement or release. -/
theorem timeout_rejection_behavior :
    (∀ (cfg : Cfg) (pre : List GEvent), cfg.timeOut ≠ 0 →
      pre.all (isSmallMove cfg) = true →
      (Gist.run cfg (pre ++ [GEvent.timer])).outcome = .rejected (some "timeOut")) ∧
    (∀ (cfg : Cfg) (pre : List GEvent), cfg.timeOut ≠ 0 →
      pre.all (isSmallMove cfg) = true →
      (DragJs.run cfg (pre ++ [GEvent.timer])).outcome = .rejected none ∧
      (DragJs.run cfg (pre ++ [GEvent.timer])).reg = []) ∧
    (∀ (cfg : Cfg) (trace : List GEvent), cfg.timeOut = 0 →
      Gist.run cfg trace = Gist.run cfg (trace.filter (fun e => !(isTimer e)))) ∧
    (∀ (cfg : Cfg) (trace : List GEvent), cfg.timeOut = 0 →
      DragJs.run cfg trace = DragJs.run cfg (trace.filter (fun e => !(isTimer e)))) := by
  refine ⟨?_, ?_, fun cfg trace h => gist_run_timeout_zero cfg h trace,
    fun cfg trace h => dragjs_run_timeout_zero cfg h trace⟩
  · intro cfg pre ht h
    have hpre : Gist.run cfg pre = initState cfg := gist_run_small_moves cfg pre h
    unfold Gist.run at hpre ⊢
    rw [List.foldl_append, hpre, List.foldl_cons, List.foldl_nil]
    show (Gist.step cfg (initState cfg) GEvent.timer).outcome = _
    simp only [Gist.step]
    rw [if_pos (show (initState cfg).timerLive = true by simp [initState, ht])]
    rfl
  · intro cfg pre ht h
    have hpre : DragJs.run cfg pre = initState cfg := dragjs_run_small_moves cfg pre h
    have hlive : (initState cfg).timerLive = true := by simp [initState, ht]
    constructor
    · unfold DragJs.run at hpre ⊢
      rw [List.foldl_append, hpre, List.foldl_cons, List.foldl_nil]
      show (DragJs.step cfg (initState cfg) GEvent.timer).outcome = _
      simp only [DragJs.step]
      rw [if_pos hlive]
      rfl
    · unfold DragJs.run at hpre ⊢
      rw [List.foldl_append, hpre, List.foldl_cons, List.foldl_nil]
      show (DragJs.step cfg (initState cfg) GEvent.timer).reg = _
      simp only [DragJs.step]
      rw [if_pos hlive]
      show cancelTracking (initState cfg).reg cfg.evType dragFnId dropFnId = []
      exact cancelTracking_initReg cfg

/-- C5 witness: with the demo configuration (normalized timeout 250),
the timer alone rejects the part_002 detector with reason "timeOut". -/
theorem timeout_rejection_behavior_witness :
    (Gist.run exampleCfg ([] ++ [GEvent.timer])).outcome = .rejected (some "timeOut") :=
  timeout_rejection_behavior.1 exampleCfg [] (by decide) (by decide)

/-- C5 counterexample: the reason string carried by the part_002
timeout rejection is "timeOut", which is not the string "timeout". -/
theorem gist_timeout_reason_spelled_timeOut :
    (Gist.run exampleCfg [GEvent.timer]).outcome = .rejected (some "timeOut") ∧
    (some "timeOut" : Option String) ≠ some "timeout" := by
  decide

/-- C6: on a duplicate-free registry, invoking a session's cancellation
handle removes exactly the session's move listener, end listener and
touch-scroll suppressor — matched by the identical
(target, event-name, function, capture) registration — every other
registered listener survives, and invoking the handle a second time is
a no-op. -/
theorem cancelTracking_removes_exactly_session_listeners :
    ∀ (reg : List Entry) (evType : String) (dragId dropId : Nat), reg.Nodup →
      (∀ x : Entry, x ∈ cancelTracking reg evType dragId dropId ↔
        x ∈ reg ∧ x ≠ moveEntry evType dragId ∧ x ≠ endEntry evType dropId ∧
          x ≠ noDefaultEntry) ∧
      cancelTracking (cancelTracking reg evType dragId dropId) evType dragId dropId
        = cancelTracking reg evType dragId dropId := by
  intro reg evType dragId dropId hnd
  refine ⟨cancelTracking_mem_iff reg evType dragId dropId hnd, ?_⟩
  apply cancelTracking_of_not_mem
  · intro hx
    exact ((cancelTracking_mem_iff reg evType dragId dropId hnd _).mp hx).2.1 rfl
  · intro hx
    exact ((cancelTracking_mem_iff reg evType dragId dropId hnd _).mp hx).2.2.1 rfl
  · intro hx
    exact ((cancelTracking_mem_iff reg evType dragId dropId hnd _).mp hx).2.2.2 rfl

/-- C6 witness: cancelling a touch session on a registry that also
holds an unrelated keydown listener keeps that listener, removes the
session's move listener, and a second cancellation changes nothing. -/
theorem cancelTracking_removes_exactly_session_listeners_witness :
    otherEntry ∈ cancelTracking exReg "touchstart" dragFnId dropFnId ∧
    moveEntry "touchstart" dragFnId ∉ cancelTracking exReg "touchstart" dragFnId dropFnId ∧
    cancelTracking (cancelTracking exReg "touchstart" dragFnId dropFnId) "touchstart"
      dragFnId dropFnId = cancelTracking exReg "touchstart" dragFnId dropFnId := by
  have h := cancelTracking_removes_exactly_session_listeners exReg "touchstart"
    dragFnId dropFnId (by decide)
  refine ⟨(h.1 otherEntry).mpr (by decide), ?_, h.2⟩
  intro hm
  exact ((h.1 (moveEntry "touchstart" dragFnId)).mp hm).2.1 rfl

/-- C7: opening a tracking session appends to the registry exactly one
matched move/end listener pair together with the suppressor — the pair
is (touchmove, touchend) when the start event's type is "touchstart"
and (mousemove, mouseup) for any other start type — and nothing else,
so a session never binds a mixed or additional pair. -/
theorem startTracking_binds_matched_pair :
    ∀ (reg : List Entry) (evType : String) (dragId dropId : Nat),
      moveEntry evType dragId ∉ reg → endEntry evType dropId ∉ reg →
      noDefaultEntry ∉ reg →
      startTracking reg evType dragId dropId
        = reg ++ [moveEntry evType dragId, endEntry evType dropId, noDefaultEntry] ∧
      (evType = "touchstart" → trackedActions evType = ("touchmove", "touchend")) ∧
      (evType ≠ "touchstart" → trackedActions evType = ("mousemove", "mouseup")) := by
  intro reg evType dragId dropId h1 h2 h3
  refine ⟨startTracking_eq_append reg evType dragId dropId h1 h2 h3, ?_, ?_⟩
  · intro h
    simp [trackedActions, h]
  · intro h
    simp [trackedActions, h]

/-- C7 witness: a touchstart session on a registry holding one
unrelated listener adds exactly the touchmove/touchend pair and the
suppressor. -/
theorem startTracking_binds_matched_pair_witness :
    startTracking [otherEntry] "touchstart" dragFnId dropFnId
      = [otherEntry] ++ [moveEntry "touchstart" dragFnId, endEntry "touchstart" dropFnId,
          noDefaultEntry] ∧
    trackedActions "touchstart" = ("touchmove", "touchend") := by
  have h := startTracking_binds_matched_pair [otherEntry] "touchstart" dragFnId dropFnId
    (by decide) (by decide) (by decide)
  exact ⟨h.1, h.2.1 rfl⟩

/-- C8: coordinate extraction returns the first active touch's
coordinates in the requested frame when the event carries a non-empty
active-touch list, the event's own coordinates otherwise, and a frame
argument outside client/page/offset — an omitted one included — is
treated as "client". -/
theorem getXY_touch_and_frame_normalization :
    (∀ (e : JsEvent) (frame : Option String) (t : EObj) (ts : List EObj),
      e.targetTouches = some (t :: ts) →
      getXY e frame = (fieldX t (normalizeFrame frame), fieldY t (normalizeFrame frame))) ∧
    (∀ (e : JsEvent) (frame : Option String),
      e.targetTouches = none ∨ e.targetTouches = some [] →
      getXY e frame
        = (fieldX e.self (normalizeFrame frame), fieldY e.self (normalizeFrame frame))) ∧
    (∀ (e : JsEvent) (f : String), f ∉ (["client", "page", "offset"] : List String) →
      getXY e (some f) = getXY e (some "client")) ∧
    (∀ e : JsEvent, getXY e none = getXY e (some "client")) := by
  refine ⟨?_, ?_, ?_, ?_⟩
  · intro e frame t ts he
    simp [getXY, touchTarget, he]
  · intro e frame he
    rcases he with he | he <;> simp [getXY, touchTarget, he]
  · intro e f hf
    simp [getXY, normalizeFrame, hf]
  · intro e
    simp [getXY, normalizeFrame]

/-- C8 witness: with one active touch and the invalid frame "bogus",
extraction returns the touch's client coordinates. -/
theorem getXY_touch_and_frame_normalization_witness :
    getXY exTouchEvent (some "bogus")
      = (fieldX exTouch (normalizeFrame (some "bogus")),
         fieldY exTouch (normalizeFrame (some "bogus"))) ∧
    getXY exTouchEvent (some "bogus") = (some 5, some 6) := by
  have h := getXY_touch_and_frame_normalization.1 exTouchEvent (some "bogus") exTouch [] rfl
  exact ⟨h, by decide⟩

/-- C9: when the timeout argument's numeric coercion is NaN — an
omitted argument and a NaN argument both are — `detectMovement`
replaces it by the variant's default constant (250 in part_002, 150 in
drag.js); a numeric argument is replaced by its absolute value, so a
negative timeout becomes its negation; the normalization is total, so
the detector never fails on such malformed input. -/
theorem detectMovement_timeout_normalization :
    (∀ t : TimeoutArg, jsIsNaN t = true →
      ∀ (evType : String) (sx sy td : ℤ),
        (Gist.detectMovement evType sx sy td t).timeOut = 250 ∧
        (DragJs.detectMovement evType sx sy td t).timeOut = 150) ∧
    (∀ (evType : String) (sx sy td q : ℤ),
      (Gist.detectMovement evType sx sy td (.num q)).timeOut = |q| ∧
      (DragJs.detectMovement evType sx sy td (.num q)).timeOut = |q|) ∧
    (∀ (evType : String) (sx sy td q : ℤ), q < 0 →
      (Gist.detectMovement evType sx sy td (.num q)).timeOut = -q) := by
  refine ⟨?_, ?_, ?_⟩
  · intro t ht evType sx sy td
    cases t with
    | undefined => exact ⟨rfl, rfl⟩
    | nan => exact ⟨rfl, rfl⟩
    | num q => simp [jsIsNaN] at ht
  · intro evType sx sy td q
    exact ⟨rfl, rfl⟩
  · intro evType sx sy td q hq
    show |q| = -q
    exact abs_of_neg hq

/-- C9 witness: an omitted timeout becomes 250 in part_002, and a
timeout of -5 becomes 5. -/
theorem detectMovement_timeout_normalization_witness :
    (Gist.detectMovement "mousedown" 0 0 16 TimeoutArg.undefined).timeOut = 250 ∧
    (Gist.detectMovement "mousedown" 0 0 16 (TimeoutArg.num (-5))).timeOut = 5 := by
  refine ⟨(detectMovement_timeout_normalization.1 TimeoutArg.undefined rfl "mousedown" 0 0 16).1, ?_⟩
  have h := detectMovement_timeout_normalization.2.2 "mousedown" 0 0 16 (-5) (by decide)
  rw [h]
  decide

/-- C10: for a touch-kind event whose active-touch list is empty (a
real `TouchEvent` carries no own coordinate properties), coordinate
extraction is total — no error path exists — and returns exactly the
coordinates an empty object yields: non-numeric (undefined) x and y,
in `getPageXY` and in `getXY` for every frame argument. -/
theorem empty_touch_list_yields_empty_object_coordinates :
    ∀ (e : JsEvent) (frame : Option String),
      e.targetTouches = some [] → e.self = emptyObj →
      getPageXY e = (emptyObj.pageX, emptyObj.pageY) ∧
      getPageXY e = (none, none) ∧
      getXY e frame = (none, none) := by
  intro e frame ht hs
  refine ⟨?_, ?_, ?_⟩ <;>
    simp [getPageXY, getXY, touchTarget, ht, hs, emptyObj, fieldX, fieldY]

/-- C10 witness: a concrete empty-touch-list event yields the empty
object's (undefined) coordinates without error. -/
theorem empty_touch_list_yields_empty_object_coordinates_witness :
    getPageXY exEmptyTouchEvent = (emptyObj.pageX, emptyObj.pageY) ∧
    getXY exEmptyTouchEvent none = (none, none) := by
  have h := empty_touch_list_yields_empty_object_coordinates exEmptyTouchEvent none rfl rfl
  exact ⟨h.1, h.2.2⟩
